import Mathlib

/-
Verification of the GA4 report dashboard (src/app.py) against its
natural-language specification.

The embedding models the "Generate Report" button handler of app.py:
validation of the selected dimensions, metrics and date range (line 83),
construction of the request-body dictionary (lines 89-116), the outgoing
call to the analytics backend (lines 119-122), the sampling check
(lines 124-126) and the flattening of the response into headers and rows
(lines 128-142).  The backend itself (Google Analytics Data API) is an
external collaborator and is modelled as a function parameter that either
returns a raw response or fails, mirroring the surrounding
try/except block (lines 87 and 144-145).
-/

namespace GA4

/-- A calendar date, as held by a Python datetime.date value. -/
structure Date where
  year : Nat
  month : Nat
  day : Nat
deriving DecidableEq

/-- Chronological (lexicographic) order on dates a < b, as datetime.date compares. -/
def Date.lt (a b : Date) : Prop :=
  a.year < b.year ∨
    (a.year = b.year ∧ (a.month < b.month ∨ (a.month = b.month ∧ a.day < b.day)))

instance (a b : Date) : Decidable (Date.lt a b) := by
  unfold Date.lt
  infer_instance

/-- Left zero padding used by strftime numeric directives. -/
def padNum (width n : Nat) : String :=
  let s := toString n
  String.mk (List.replicate (width - s.length) '0') ++ s

/-- The strftime format string used on line 93-94 of app.py. -/
def Date.strftime (d : Date) : String :=
  padNum 4 d.year ++ "-" ++ padNum 2 d.month ++ "-" ++ padNum 2 d.day

/-- A singleton dictionary such as the `name` entries built on lines 90-91. -/
structure NameEntry where
  name : String
deriving DecidableEq

/-- One element of the dateRanges list (lines 92-95). -/
structure DateRangeEntry where
  startDate : String
  endDate : String
deriving DecidableEq

/-- The stringFilter dictionary of lines 103 and 111: only a value key is ever set
(the API applies its default match type to it). -/
structure StringFilterValue where
  value : String
deriving DecidableEq

/-- The inner filter dictionary of lines 101-104 and 109-112. -/
structure FilterCondition where
  fieldName : String
  stringFilter : StringFilterValue
deriving DecidableEq

/-- One element appended to all_filters: a dictionary with single key filter. -/
structure FilterExpression where
  filter : FilterCondition
deriving DecidableEq

/-- The andGroup dictionary of line 116. -/
structure AndGroup where
  expressions : List FilterExpression
deriving DecidableEq

/-- The dimensionFilter value set on line 116. -/
structure DimensionFilter where
  andGroup : AndGroup
deriving DecidableEq

/-- The request-body dictionary of lines 89-96 (plus the optional dimensionFilter
key of line 116).  Optional keys of the wire dictionary are Option fields; the
GA4 API also accepts a limit key (row-count ceiling), which this app never sets,
so the builder always leaves it none. -/
structure RequestBody where
  dimensions : List NameEntry
  metrics : List NameEntry
  dateRanges : List DateRangeEntry
  dimensionFilter : Option DimensionFilter
  limit : Option Nat
deriving DecidableEq

/-- Lines 98-113 of app.py: the device filter is appended first when the
selectbox value is truthy and not the sentinel "All"; the channel filter is
appended when the free-text value is truthy (non-empty). -/
def all_filters (device_filter channel_filter : String) : List FilterExpression :=
  (if device_filter ≠ "" ∧ device_filter ≠ "All" then
      [⟨⟨"deviceCategory", ⟨device_filter⟩⟩⟩]
    else []) ++
  (if channel_filter ≠ "" then
      [⟨⟨"sessionDefaultChannelGroup", ⟨channel_filter⟩⟩⟩]
    else [])

/-- Lines 89-116 of app.py: assembly of the request body from the selections.
The dimensionFilter key is set only when all_filters is non-empty (line 115);
no limit key is ever written. -/
def build_request_body (selected_dimensions selected_metrics : List String)
    (d0 d1 : Date) (device_filter channel_filter : String) : RequestBody :=
  let fs := all_filters device_filter channel_filter
  { dimensions := selected_dimensions.map (fun dim => ⟨dim⟩)
    metrics := selected_metrics.map (fun metric => ⟨metric⟩)
    dateRanges := [⟨d0.strftime, d1.strftime⟩]
    dimensionFilter := if fs.isEmpty then none else some ⟨⟨fs⟩⟩
    limit := none }

/-- The arguments of the runReport call on lines 119-122: a property string,
the body, and the timeout argument of execute, which the code never supplies. -/
structure OutgoingCall where
  property : String
  body : RequestBody
  timeout : Option Nat
deriving DecidableEq

/-- Line 120 of app.py, and the absent timeout on execute (line 122). -/
def outgoing_call (property_id : String) (body : RequestBody) : OutgoingCall :=
  ⟨"properties/" ++ property_id, body, none⟩

/-- A dimensionHeaders or metricHeaders element of the backend response. -/
structure Header where
  name : String
deriving DecidableEq

/-- A dimensionValues or metricValues element of a response row. -/
structure CellValue where
  value : String
deriving DecidableEq

/-- One element of the rows list of the backend response. -/
structure ResponseRow where
  dimensionValues : List CellValue
  metricValues : List CellValue
deriving DecidableEq

/-- The backend response as read by app.py: dictionary keys accessed with
.get and a list default, so an absent key is modelled by the empty list.
The samplingMetadatas entries themselves are never inspected beyond
truthiness (line 125), so they are modelled as opaque units. -/
structure RawResponse where
  dimensionHeaders : List Header
  metricHeaders : List Header
  rows : List ResponseRow
  samplingMetadatas : List Unit
deriving DecidableEq

/-- Lines 129-130 of app.py: the table headers are the dimension header names
followed by the metric header names, both read from the response. -/
def response_headers (response : RawResponse) : List String :=
  response.dimensionHeaders.map (fun h => h.name) ++
    response.metricHeaders.map (fun h => h.name)

/-- Lines 133-134 of app.py: one output row is the dimension values followed
by the metric values of the response row. -/
def row_values (row : ResponseRow) : List String :=
  row.dimensionValues.map (fun dv => dv.value) ++
    row.metricValues.map (fun mv => mv.value)

/-- Lines 131-135 of app.py: the rows list built from the response. -/
def response_rows (response : RawResponse) : List (List String) :=
  response.rows.map row_values

/-- The table handed to pd.DataFrame on line 140. -/
structure ReportTable where
  columns : List String
  rows : List (List String)
deriving DecidableEq

/-- The observable outcome of one press of the Generate Report button:
the st.warning of line 84, the st.error of line 145, the st.info of
line 138, or the st.dataframe of line 142.  The sampled flag records
whether the sampling st.warning of line 126 was shown. -/
inductive HandlerResult where
  | validationWarning (msg : String)
  | reportError (msg : String)
  | noData (sampled : Bool)
  | success (table : ReportTable) (sampled : Bool)
deriving DecidableEq

/-- Lines 124-142 of app.py: after a successful backend call, check the
sampling metadata, flatten headers and rows, and either report no data
(line 138) or show the table (lines 140-142). -/
def process_response (response : RawResponse) : HandlerResult :=
  let sampled := !response.samplingMetadatas.isEmpty
  let headers := response_headers response
  let rows := response_rows response
  if rows.isEmpty then .noData sampled
  else .success ⟨headers, rows⟩ sampled

/-- Lines 82-145 of app.py: the Generate Report button handler.  The backend
(the vendor SDK call of lines 119-122 together with the enclosing
try/except) is a parameter; date_range is the tuple returned by the
st.date_input widget, which may hold fewer than two dates mid-selection,
hence the length check of line 83. -/
def generate_report (backend : OutgoingCall → Except String RawResponse)
    (property_id : String)
    (selected_dimensions selected_metrics : List String)
    (date_range : List Date)
    (channel_filter device_filter : String) : HandlerResult :=
  if selected_dimensions = [] ∨ selected_metrics = [] ∨ date_range.length ≠ 2 then
    .validationWarning
      "Please select at least one dimension, one metric, and a valid date range."
  else
    match backend (outgoing_call property_id
        (build_request_body selected_dimensions selected_metrics
          (date_range.getD 0 ⟨1970, 1, 1⟩) (date_range.getD 1 ⟨1970, 1, 1⟩)
          device_filter channel_filter)) with
    | .error e => .reportError ("An error occurred while running the report: " ++ e)
    | .ok response => process_response response

/-- Well-formedness of a backend response: every row carries exactly one
dimension value per dimension header and one metric value per metric header. -/
def WellFormed (r : RawResponse) : Prop :=
  ∀ row ∈ r.rows,
    row.dimensionValues.length = r.dimensionHeaders.length ∧
      row.metricValues.length = r.metricHeaders.length

instance (r : RawResponse) : Decidable (WellFormed r) := by
  unfold WellFormed
  infer_instance

/-- Modelled from the spec: serialization of a Report Table into a
human-readable text block for the agent (spec section 4.4); the chat-agent
variant of the app is not among the source files. -/
def serialize_table (t : ReportTable) : String :=
  String.intercalate " | " t.columns ++ "\n" ++
    String.intercalate "\n" (t.rows.map (fun r => String.intercalate " | " r))

/-- Modelled from the spec: parsing of a YYYY-MM-DD date string by the
Tool Adapter (spec section 4.4); the chat-agent variant of the app is not
among the source files. -/
def parse_date (s : String) : Option Date :=
  match (s.splitOn "-").map String.toNat? with
  | [some y, some m, some d] => some ⟨y, m, d⟩
  | _ => none

/-- Modelled from the spec: the Builder-Client-Normalizer pipeline behind the
Tool Adapter of spec section 4.4; the chat-agent variant of the app is not
among the source files.  Per the spec it parses the date strings, validates
(non-empty dimensions and metrics, start not after end), calls the client and
normalizes the response; ValidationError and ClientError are the error cases. -/
def report_pipeline (client : RequestBody → Except String RawResponse)
    (metrics dimensions : List String) (start_date end_date : String) :
    Except String ReportTable :=
  match parse_date start_date, parse_date end_date with
  | none, _ => .error "ValidationError: start_date is not a valid YYYY-MM-DD date"
  | _, none => .error "ValidationError: end_date is not a valid YYYY-MM-DD date"
  | some ds, some de =>
    if dimensions = [] then .error "ValidationError: dimensions must be non-empty"
    else if metrics = [] then .error "ValidationError: metrics must be non-empty"
    else if Date.lt de ds then
      .error "ValidationError: start_date must not be after end_date"
    else
      match client
          { dimensions := dimensions.map (fun dim => ⟨dim⟩)
            metrics := metrics.map (fun metric => ⟨metric⟩)
            dateRanges := [⟨start_date, end_date⟩]
            dimensionFilter := none
            limit := none } with
      | .error e => .error ("ClientError: " ++ e)
      | .ok r => .ok ⟨response_headers r, response_rows r⟩

/-- Modelled from the spec: the Tool Adapter get_analytics_report of spec
section 4.4 belongs to the chat-agent variant of the app, which is not among
the source files.  It runs the pipeline, serializes the table, and never
raises: every ValidationError or ClientError becomes a descriptive string
starting with a failure indicator. -/
def get_analytics_report (client : RequestBody → Except String RawResponse)
    (metrics dimensions : List String) (start_date end_date : String) : String :=
  match report_pipeline client metrics dimensions start_date end_date with
  | .ok t => serialize_table t
  | .error reason => "Tool execution failed: " ++ reason

/-! ## Claim C1 -/

/-- A backend response whose dimension headers come back in an order different
from the requested one (country before pagePath). -/
def c1Response : RawResponse :=
  { dimensionHeaders := [⟨"country"⟩, ⟨"pagePath"⟩]
    metricHeaders := [⟨"sessions"⟩]
    rows := [⟨[⟨"US"⟩, ⟨"/home"⟩], [⟨"5"⟩]⟩]
    samplingMetadatas := [] }

/-- Claim C1, counterexample: requesting dimensions [pagePath, country] with metric
[sessions] against a backend that returns its dimension headers reordered yields a
table whose columns follow the RESPONSE order [country, pagePath, sessions], not the
requested order, so the column order is re-discovered from the response headers
rather than derived from the request. -/
theorem c1_counterexample :
    generate_report (fun _ => .ok c1Response) "p" ["pagePath", "country"] ["sessions"]
        [⟨2024, 1, 1⟩, ⟨2024, 1, 7⟩] "" "All"
      = .success ⟨["country", "pagePath", "sessions"], [["US", "/home", "5"]]⟩ false
    ∧ ["country", "pagePath", "sessions"] ≠ ["pagePath", "country"] ++ ["sessions"] := by
  refine ⟨by decide, by decide⟩

/-- Claim C1, amended: the resulting table takes its column order from the backend
response, namely the response dimension header names followed by the response metric
header names; it therefore equals the requested order exactly when the backend echoes
the request, and is not derived from the request itself. -/
theorem c1_columns_from_response (r : RawResponse) (h : response_rows r ≠ []) :
    process_response r =
      .success
        ⟨r.dimensionHeaders.map (fun hd => hd.name) ++
            r.metricHeaders.map (fun hd => hd.name),
          response_rows r⟩
        (!r.samplingMetadatas.isEmpty) := by
  have h2 : (response_rows r).isEmpty = false := by
    cases hr : response_rows r with
    | nil => exact absurd hr h
    | cons a l => rfl
  simp [process_response, response_headers, h2]

/-- Witness for c1_columns_from_response at the concrete response c1Response. -/
theorem c1_witness :
    response_rows c1Response ≠ [] ∧
    process_response c1Response =
      .success ⟨["country", "pagePath", "sessions"], [["US", "/home", "5"]]⟩ false :=
  ⟨by decide, c1_columns_from_response c1Response (by decide)⟩

/-! ## Claim C2 -/

/-- An empty but well-formed backend response used by the C2 counterexample. -/
def c2Response : RawResponse :=
  { dimensionHeaders := [⟨"pagePath"⟩]
    metricHeaders := [⟨"sessions"⟩]
    rows := []
    samplingMetadatas := [] }

/-- Claim C2, counterexample: with start 2024-01-07 after end 2024-01-01 (the first
conjunct states end < start) the handler issues no validation warning; the outcome is
determined by the backend (noData for an empty response, reportError for a failing
backend), so the request is built and the backend call is made with the inverted
range. -/
theorem c2_counterexample :
    Date.lt ⟨2024, 1, 1⟩ ⟨2024, 1, 7⟩ ∧
    generate_report (fun _ => .ok c2Response) "p" ["pagePath"] ["sessions"]
        [⟨2024, 1, 7⟩, ⟨2024, 1, 1⟩] "" "All" = .noData false ∧
    generate_report (fun _ => .error "boom") "p" ["pagePath"] ["sessions"]
        [⟨2024, 1, 7⟩, ⟨2024, 1, 1⟩] "" "All" =
      .reportError "An error occurred while running the report: boom" := by
  refine ⟨by decide, by decide, by decide⟩

/-- Claim C2, amended: the handler warns and skips the backend call exactly when the
dimensions are empty, the metrics are empty, or the date range does not hold exactly
two dates; an inverted two-date range is NOT rejected — no start/end order check
exists, ordering being left to the date-picker widget outside the handler. -/
theorem c2_validation_checks (backend : OutgoingCall → Except String RawResponse)
    (pid : String) (dims mets : List String) (dr : List Date) (c d : String) :
    (∃ msg, generate_report backend pid dims mets dr c d = .validationWarning msg)
      ↔ (dims = [] ∨ mets = [] ∨ dr.length ≠ 2) := by
  constructor
  · rintro ⟨msg, hmsg⟩
    unfold generate_report at hmsg
    split at hmsg
    · assumption
    · cases hb : backend (outgoing_call pid (build_request_body dims mets
          (dr.getD 0 ⟨1970, 1, 1⟩) (dr.getD 1 ⟨1970, 1, 1⟩) d c)) with
      | error e => rw [hb] at hmsg; simp at hmsg
      | ok r =>
        rw [hb] at hmsg
        simp only [process_response] at hmsg
        split at hmsg <;> simp at hmsg
  · intro h
    exact ⟨_, by unfold generate_report; rw [if_pos h]⟩

/-! ## Claim C3 -/

/-- Claim C3: with a non-blank channel value and a device value that is neither blank
nor the sentinel All, the request carries an andGroup of exactly the two conditions
(device first, channel second, as appended); with device = All and a non-blank
channel, only the channel condition; with device = All and a blank channel, no
dimensionFilter key at all. -/
theorem c3_filter_composition (dims mets : List String) (d0 d1 : Date) (c d : String) :
    (d ≠ "" → d ≠ "All" → c ≠ "" →
      (build_request_body dims mets d0 d1 d c).dimensionFilter =
        some ⟨⟨[⟨⟨"deviceCategory", ⟨d⟩⟩⟩,
                ⟨⟨"sessionDefaultChannelGroup", ⟨c⟩⟩⟩]⟩⟩) ∧
    (c ≠ "" →
      (build_request_body dims mets d0 d1 "All" c).dimensionFilter =
        some ⟨⟨[⟨⟨"sessionDefaultChannelGroup", ⟨c⟩⟩⟩]⟩⟩) ∧
    (build_request_body dims mets d0 d1 "All" "").dimensionFilter = none := by
  refine ⟨?_, ?_, ?_⟩
  · intro hd hAll hc
    simp [build_request_body, all_filters, hd, hAll, hc]
  · intro hc
    simp [build_request_body, all_filters, hc]
  · simp [build_request_body, all_filters]

/-- Witness for c3_filter_composition with channel Organic Search and device
Mobile. -/
theorem c3_witness :
    (build_request_body ["pagePath"] ["sessions"] ⟨2024, 1, 1⟩ ⟨2024, 1, 7⟩
        "Mobile" "Organic Search").dimensionFilter =
      some ⟨⟨[⟨⟨"deviceCategory", ⟨"Mobile"⟩⟩⟩,
              ⟨⟨"sessionDefaultChannelGroup", ⟨"Organic Search"⟩⟩⟩]⟩⟩ :=
  (c3_filter_composition ["pagePath"] ["sessions"] ⟨2024, 1, 1⟩ ⟨2024, 1, 7⟩
      "Organic Search" "Mobile").1 (by decide) (by decide) (by decide)

/-! ## Claim C4 -/

/-- Claim C4: each output row is the concatenation, in order, of the response row
dimension values followed by its metric values (already string representations), and
for a well-formed response every output row has exactly as many entries as there are
columns. -/
theorem c4_row_shape (r : RawResponse) (h : WellFormed r) :
    response_rows r = r.rows.map (fun row =>
        row.dimensionValues.map (fun dv => dv.value) ++
          row.metricValues.map (fun mv => mv.value)) ∧
    ∀ rv ∈ response_rows r, rv.length = (response_headers r).length := by
  refine ⟨rfl, ?_⟩
  intro rv hrv
  simp only [response_rows, List.mem_map] at hrv
  obtain ⟨row, hrow, rfl⟩ := hrv
  obtain ⟨hd, hm⟩ := h row hrow
  simp [row_values, response_headers, hd, hm]

/-- A well-formed two-row response used to witness c4_row_shape. -/
def c4Response : RawResponse :=
  { dimensionHeaders := [⟨"pagePath"⟩]
    metricHeaders := [⟨"sessions"⟩, ⟨"activeUsers"⟩]
    rows := [⟨[⟨"/a"⟩], [⟨"3"⟩, ⟨"2"⟩]⟩, ⟨[⟨"/b"⟩], [⟨"1"⟩, ⟨"1"⟩]⟩]
    samplingMetadatas := [] }

/-- Witness for c4_row_shape at the concrete response c4Response. -/
theorem c4_witness :
    WellFormed c4Response ∧
    ∀ rv ∈ response_rows c4Response, rv.length = (response_headers c4Response).length :=
  ⟨by decide, (c4_row_shape c4Response (by decide)).2⟩

/-! ## Claim C5 -/

/-- Claim C5: for a zero-row well-formed response whose headers echo the request, the
normalized table has columns dimensions-then-metrics and zero rows, and the handler
reports no data (st.info), not an error. -/
theorem c5_zero_rows (backend : OutgoingCall → Except String RawResponse)
    (pid : String) (dims mets : List String) (dr : List Date) (c d : String)
    (r : RawResponse)
    (hd : dims ≠ []) (hm : mets ≠ []) (hl : dr.length = 2)
    (hb : ∀ call, backend call = .ok r)
    (hdh : r.dimensionHeaders = dims.map (fun s => ⟨s⟩))
    (hmh : r.metricHeaders = mets.map (fun s => ⟨s⟩))
    (hrows : r.rows = []) :
    response_headers r = dims ++ mets ∧
    response_rows r = [] ∧
    generate_report backend pid dims mets dr c d =
      .noData (!r.samplingMetadatas.isEmpty) := by
  have hrr : response_rows r = [] := by simp [response_rows, hrows]
  have hcompid : ((fun h : Header => h.name) ∘ fun s : String => (⟨s⟩ : Header)) =
      fun s => s := rfl
  refine ⟨by simp [response_headers, hdh, hmh, hcompid], hrr, ?_⟩
  unfold generate_report
  rw [if_neg (by simp [hd, hm, hl])]
  rw [hb]
  simp [process_response, hrr]

/-- A zero-row response echoing dimensions [pagePath] and metrics [sessions]. -/
def c5Response : RawResponse :=
  { dimensionHeaders := [⟨"pagePath"⟩]
    metricHeaders := [⟨"sessions"⟩]
    rows := []
    samplingMetadatas := [] }

/-- Witness for c5_zero_rows at the spec example: dimensions [pagePath], metrics
[sessions], zero returned rows. -/
theorem c5_witness :
    response_headers c5Response = ["pagePath"] ++ ["sessions"] ∧
    response_rows c5Response = [] ∧
    generate_report (fun _ => .ok c5Response) "p" ["pagePath"] ["sessions"]
        [⟨2024, 1, 1⟩, ⟨2024, 1, 7⟩] "" "All" =
      .noData (!c5Response.samplingMetadatas.isEmpty) :=
  c5_zero_rows _ "p" ["pagePath"] ["sessions"] [⟨2024, 1, 1⟩, ⟨2024, 1, 7⟩] "" "All"
    c5Response (by decide) (by decide) (by decide) (fun _ => rfl)
    (by decide) (by decide) (by decide)

/-! ## Claim C6 -/

/-- Claim C6, counterexample: the concrete request built for dimensions [pagePath]
and metrics [sessions] carries no limit key at all — in particular not the ceiling
1000 — and the outgoing call carries no timeout argument. -/
theorem c6_counterexample :
    (build_request_body ["pagePath"] ["sessions"] ⟨2024, 1, 1⟩ ⟨2024, 1, 7⟩
        "All" "").limit = none ∧
    (build_request_body ["pagePath"] ["sessions"] ⟨2024, 1, 1⟩ ⟨2024, 1, 7⟩
        "All" "").limit ≠ some 1000 ∧
    (outgoing_call "p" (build_request_body ["pagePath"] ["sessions"]
        ⟨2024, 1, 1⟩ ⟨2024, 1, 7⟩ "All" "")).timeout = none := by
  refine ⟨rfl, by decide, rfl⟩

/-- Claim C6, amended: no outgoing request carries a row-count ceiling or a timeout
bound — for every input the built body has no limit key and the runReport/execute
call passes no timeout, both being left to the backend SDK defaults. -/
theorem c6_no_limit_no_timeout (dims mets : List String) (d0 d1 : Date)
    (dev ch pid : String) :
    (build_request_body dims mets d0 d1 dev ch).limit = none ∧
    (outgoing_call pid (build_request_body dims mets d0 d1 dev ch)).timeout = none :=
  ⟨rfl, rfl⟩

/-! ## Claim C7 -/

/-- Claim C7: empty dimensions or empty metrics yield the validation warning, for
every backend whatsoever — the result does not depend on the backend, so no backend
call is issued. -/
theorem c7_empty_selection (backend : OutgoingCall → Except String RawResponse)
    (pid : String) (dims mets : List String) (dr : List Date) (c d : String)
    (h : dims = [] ∨ mets = []) :
    generate_report backend pid dims mets dr c d =
      .validationWarning
        "Please select at least one dimension, one metric, and a valid date range." := by
  unfold generate_report
  rw [if_pos (by tauto)]

/-- Witness for c7_empty_selection with empty dimensions and a backend that would
fail if called. -/
theorem c7_witness :
    generate_report (fun _ => .error "never called") "p" [] ["sessions"]
        [⟨2024, 1, 1⟩, ⟨2024, 1, 7⟩] "" "All" =
      .validationWarning
        "Please select at least one dimension, one metric, and a valid date range." :=
  c7_empty_selection _ "p" [] ["sessions"] [⟨2024, 1, 1⟩, ⟨2024, 1, 7⟩] "" "All"
    (Or.inl rfl)

/-! ## Claim C8 -/

/-- Claim C8: when the response carries sampling metadata, the handler surfaces the
sampled warning flag as true and processing continues normally — the outcome is the
usual noData/success shape with the flag set, never an error. -/
theorem c8_sampling_flag (r : RawResponse) (h : r.samplingMetadatas ≠ []) :
    process_response r =
      (if (response_rows r).isEmpty then .noData true
        else .success ⟨response_headers r, response_rows r⟩ true) ∧
    ∀ msg, process_response r ≠ .reportError msg := by
  have hs : (!r.samplingMetadatas.isEmpty) = true := by
    cases hm : r.samplingMetadatas with
    | nil => exact absurd hm h
    | cons a l => rfl
  constructor
  · simp only [process_response, hs]
  · intro msg
    simp only [process_response, hs]
    split <;> simp

/-- A sampled single-row response used to witness c8_sampling_flag. -/
def c8Response : RawResponse :=
  { dimensionHeaders := [⟨"pagePath"⟩]
    metricHeaders := [⟨"sessions"⟩]
    rows := [⟨[⟨"/a"⟩], [⟨"4"⟩]⟩]
    samplingMetadatas := [()] }

/-- Witness for c8_sampling_flag at the concrete sampled response c8Response. -/
theorem c8_witness :
    c8Response.samplingMetadatas ≠ [] ∧
    process_response c8Response = .success ⟨["pagePath", "sessions"], [["/a", "4"]]⟩ true :=
  ⟨by decide, by
    rw [(c8_sampling_flag c8Response (by decide)).1]
    decide⟩

/-! ## Claim C9 -/

/-- Claim C9: the Tool Adapter always returns a string that is either the serialized
table or a text beginning with the failure indicator, and with a client that fails on
every input the result is always a failure text — it never raises (the adapter is a
total function by construction). -/
theorem c9_tool_adapter (client : RequestBody → Except String RawResponse)
    (mets dims : List String) (sd ed : String) (e : String) :
    ((∃ t : ReportTable, get_analytics_report client mets dims sd ed = serialize_table t) ∨
      (∃ reason, get_analytics_report client mets dims sd ed =
        "Tool execution failed: " ++ reason)) ∧
    ((∀ body, client body = .error e) →
      ∃ reason, get_analytics_report client mets dims sd ed =
        "Tool execution failed: " ++ reason) := by
  constructor
  · unfold get_analytics_report
    cases hp : report_pipeline client mets dims sd ed with
    | ok t => exact Or.inl ⟨t, rfl⟩
    | error reason => exact Or.inr ⟨reason, rfl⟩
  · intro hc
    have hpipe : ∃ reason, report_pipeline client mets dims sd ed = .error reason := by
      unfold report_pipeline
      rcases parse_date sd with _ | ds <;> rcases parse_date ed with _ | de
      · exact ⟨"ValidationError: start_date is not a valid YYYY-MM-DD date", rfl⟩
      · exact ⟨"ValidationError: start_date is not a valid YYYY-MM-DD date", rfl⟩
      · exact ⟨"ValidationError: end_date is not a valid YYYY-MM-DD date", rfl⟩
      · by_cases h1 : dims = []
        · exact ⟨"ValidationError: dimensions must be non-empty", by simp [h1]⟩
        · by_cases h2 : mets = []
          · exact ⟨"ValidationError: metrics must be non-empty", by simp [h1, h2]⟩
          · by_cases h3 : Date.lt de ds
            · exact ⟨"ValidationError: start_date must not be after end_date",
                by simp [h1, h2, h3]⟩
            · exact ⟨"ClientError: " ++ e, by simp [h1, h2, h3, hc]⟩
    obtain ⟨reason, hr⟩ := hpipe
    exact ⟨reason, by unfold get_analytics_report; rw [hr]⟩

/-- Witness for c9_tool_adapter: a client stub failing on every input still yields a
string result carrying the failure indicator. -/
theorem c9_witness :
    ∃ reason, get_analytics_report (fun _ => .error "boom") ["sessions"] ["pagePath"]
        "2024-01-01" "2024-01-07" = "Tool execution failed: " ++ reason :=
  (c9_tool_adapter (fun _ => .error "boom") ["sessions"] ["pagePath"]
      "2024-01-01" "2024-01-07" "boom").2 (fun _ => rfl)

/-! ## Claim C10 -/

/-- Claim C10: every filter condition the app ever builds targets one of the two
fixed field names — deviceCategory carrying the supplied device value, or
sessionDefaultChannelGroup carrying the supplied channel value — and the attached
dimensionFilter does not depend on the selected dimensions, metrics or dates. -/
theorem c10_fixed_filter_fields (d c : String) :
    (∀ f ∈ all_filters d c,
        f.filter = ⟨"deviceCategory", ⟨d⟩⟩ ∨
          f.filter = ⟨"sessionDefaultChannelGroup", ⟨c⟩⟩) ∧
    (∀ dims mets dims2 mets2 : List String, ∀ a b a2 b2 : Date,
        (build_request_body dims mets a b d c).dimensionFilter =
          (build_request_body dims2 mets2 a2 b2 d c).dimensionFilter) := by
  constructor
  · intro f hf
    unfold all_filters at hf
    rw [List.mem_append] at hf
    rcases hf with hf | hf
    · left
      split at hf
      · rw [List.mem_singleton] at hf
        rw [hf]
      · simp at hf
    · right
      split at hf
      · rw [List.mem_singleton] at hf
        rw [hf]
      · simp at hf
  · intro dims mets dims2 mets2 a b a2 b2
    rfl

/-- Witness for c10_fixed_filter_fields at the device condition built for device
Mobile and channel Organic Search. -/
theorem c10_witness :
    (FilterExpression.mk ⟨"deviceCategory", ⟨"Mobile"⟩⟩).filter =
        ⟨"deviceCategory", ⟨"Mobile"⟩⟩ ∨
      (FilterExpression.mk ⟨"deviceCategory", ⟨"Mobile"⟩⟩).filter =
        ⟨"sessionDefaultChannelGroup", ⟨"Organic Search"⟩⟩ :=
  (c10_fixed_filter_fields "Mobile" "Organic Search").1
    ⟨⟨"deviceCategory", ⟨"Mobile"⟩⟩⟩ (by decide)

end GA4
